import Mathlib

/-!
Shallow embedding of `src/vtp/web/api/backend.py` (class `VtpBackend`), the
session gateway of the VTP spring demo web API, together with models of the
external collaborators it calls (`vtp.core.common.Common`,
`vtp.ops.*Operation`), which are not part of this repository's source and are
therefore modelled from the specification.

Each gateway operation is embedded as a function from an environment of
external collaborators (`Env`) and a backend state (`BackendState`) to a
triple: the operation's result, the list of calls the gateway made to the
Workspace Directory / Operation Invoker collaborators (`Call`), and the
resulting backend state.  Python exceptions are embedded as `Except Error`.
-/

/-- Structured JSON-like documents (blank ballots, cast ballots, payload
fields).  The gateway treats these as opaque values and only forwards them. -/
inductive Doc where
  | null : Doc
  | str : String → Doc
  | num : Int → Doc
  | arr : List Doc → Doc

/-- Failure classification visible at the gateway boundary.
`unknownSession` is the resolution failure of spec §4.2/§7; `keyError k` is a
Python `KeyError` on a payload dictionary lookup; `configError` is a fatal
fixture read/parse failure in mock mode; `delegated` stands for any failure
raised inside a backing-store operation and propagated unchanged. -/
inductive Error where
  | unknownSession : Error
  | keyError : String → Error
  | configError : String → Error
  | delegated : String → Error
deriving DecidableEq, Repr

/-- A call made by the gateway to a live-mode collaborator (Workspace
Directory or Operation Invoker).  Mock-fixture file reads are not collaborator
calls and are not recorded here. -/
inductive Call where
  | genericRoDir : Call
  | resolveDir : String → Call
  | setupRun : String → Nat → Bool → Call
  | listWorkspaces : Call
  | blankRun : String → Nat → String → Bool → Call
  | acceptRun : String → Nat → Doc → Bool → Call
  | verifyRun : String → Doc → Doc → Bool → Call
  | tallyRun : String → Doc → Doc → Doc → Call

/-- Process/backing-store state observable through the gateway: the
process-wide mock-mode flag (`VtpBackend._MOCK_MODE`), the set of issued guid
workspaces, a supply of fresh guids for provisioning, and the per-workspace
blank-ballot contents. -/
structure BackendState where
  mockMode : Bool
  workspaces : List String
  guidSupply : Nat → String
  guidCounter : Nat
  blankBallotOf : String → Nat → String → Except Error Doc

/-- External collaborators as abstract operations: fixture file reads
(`open` + `json.load` / `csv.reader`; a `String` error is a fatal read/parse
message), the workspace path mapping, and the three delegated backing-store
runs whose behavior the gateway does not constrain (they may fail with any
`Error` and may mutate the state). -/
structure Env where
  genericRoEdfDir : String
  guidDirOf : String → String
  readJson : String → Except String Doc
  readCsv : String → Except String (List (List String))
  acceptRun : String → Nat → Doc → Bool → BackendState →
    Except Error (List (List String) × Nat) × BackendState
  verifyRun : String → Doc → Doc → Bool → BackendState →
    Except Error String × BackendState
  tallyRun : String → Doc → Doc → Doc → BackendState →
    Except Error String × BackendState

/-- Python `dict[key]` on the incoming payload: first binding of the key, or
a `KeyError`. -/
def dictGet (kvs : List (String × Doc)) (k : String) : Except Error Doc :=
  match kvs with
  | [] => .error (.keyError k)
  | kv :: rest => if kv.1 == k then .ok kv.2 else dictGet rest k

namespace SetupVtpDemoOperation

/-- Modelled from the spec: `SetupVtpDemoOperation.run(guid_client_store=True)`
(in the external VoteTrackerPlus repo, not in src/) provisions a new isolated
guid workspace and returns its generated identifier (spec §4.2 `issue_session`,
§6 workspace provisioning operation). -/
def run (st : BackendState) : String × BackendState :=
  let g := st.guidSupply st.guidCounter
  (g, { st with workspaces := g :: st.workspaces, guidCounter := st.guidCounter + 1 })

/-- Modelled from the spec: the class-level
`SetupVtpDemoOperation.get_all_guid_workspaces()` (not in src/) enumerates all
currently known guid workspaces (spec §4.2 `list_sessions`, §6 workspace
enumeration). -/
def get_all_guid_workspaces (st : BackendState) : List String :=
  st.workspaces

end SetupVtpDemoOperation

namespace Common

/-- Modelled from the spec: `Common.get_guid_based_edf_dir` (in
`vtp.core.common`, not in src/) maps a session identifier to its workspace
location and fails with `UnknownSession` if the identifier was never issued
(spec §4.2 `resolve`, §7). -/
def get_guid_based_edf_dir (env : Env) (st : BackendState) (guid : String) :
    Except Error String :=
  if st.workspaces.contains guid then .ok (env.guidDirOf guid)
  else .error .unknownSession

end Common

namespace VtpBackend

/-- `VtpBackend._MOCK_MODE` is pinned to `False` in the source at module load;
the claims quantify over both configurations of this process-wide flag, so the
embedding reads it from `BackendState.mockMode`.  This constant records the
source's shipped default. -/
def _MOCK_MODE : Bool := false

def _MOCK_BLANK_BALLOT : String := "mock-data/blank-ballot.json"

def _MOCK_CAST_BALLOT : String := "mock-data/cast-ballot.json"

def _MOCK_BALLOT_CHECK : String := "mock-data/receipts.26.csv"

def _MOCK_VOTER_INDEX : Nat := 26

def _MOCK_GUID : String := "01d963fd74100ee3f36428740a8efd8afd781839"

def _MOCK_VERIFY_BALLOT_RECEIPT_LOG : String := "Hello World"

def _MOCK_TALLY_CONTESTS_LOG : String := "Good Morning"

def _VERBOSITY : Nat := 3

def _ADDRESS : String := "123, Main Street, Concord, Massachusetts"

/-- Endpoint #1 (`get_vote_store_id`): in mock mode returns the fixed guid; in
live mode computes the generic read-only EDF dir, constructs
`SetupVtpDemoOperation`, and returns `operation.run(guid_client_store=True)`. -/
def get_vote_store_id (env : Env) (st : BackendState) :
    String × List Call × BackendState :=
  if st.mockMode then
    (_MOCK_GUID, [], st)
  else
    let dir := env.genericRoEdfDir
    let (g, st') := SetupVtpDemoOperation.run st
    (g, [.genericRoDir, .setupRun dir _VERBOSITY true], st')

/-- Endpoint #2 (`get_empty_ballot`): in mock mode loads and parses the blank
ballot fixture; in live mode resolves the guid workspace and runs
`CastBallotOperation.run(an_address=_ADDRESS, return_bb=True)`.  The blank
ballot run is modelled from the spec (`CastBallotOperation` is not in src/) as
a read-only function of the workspace state (spec §3 blank ballot document,
§6 blank-ballot operation). -/
def get_empty_ballot (env : Env) (st : BackendState) (vote_store_id : String) :
    Except Error Doc × List Call × BackendState :=
  if st.mockMode then
    (match env.readJson _MOCK_BLANK_BALLOT with
      | .error m => .error (.configError m)
      | .ok json_doc => .ok json_doc,
     [], st)
  else
    match Common.get_guid_based_edf_dir env st vote_store_id with
    | .error e => (.error e, [.resolveDir vote_store_id], st)
    | .ok dir =>
      (st.blankBallotOf dir _VERBOSITY _ADDRESS,
       [.resolveDir vote_store_id, .blankRun dir _VERBOSITY _ADDRESS true], st)

/-- `get_all_guid_workspaces`: delegates unconditionally to
`SetupVtpDemoOperation.get_all_guid_workspaces()`.  Faithful to the source:
this is the one endpoint with no `_MOCK_MODE` branch. -/
def get_all_guid_workspaces (st : BackendState) :
    List String × List Call × BackendState :=
  (SetupVtpDemoOperation.get_all_guid_workspaces st, [.listWorkspaces], st)

/-- `mock_get_cast_ballot`: loads and parses the static cast-ballot fixture. -/
def mock_get_cast_ballot (env : Env) : Except Error Doc :=
  match env.readJson _MOCK_CAST_BALLOT with
  | .error m => .error (.configError m)
  | .ok json_doc => .ok json_doc

/-- `mock_get_ballot_check`: loads the static ballot-check CSV fixture and
pairs its rows with `_MOCK_VOTER_INDEX`. -/
def mock_get_ballot_check (env : Env) :
    Except Error (List (List String) × Nat) :=
  match env.readCsv _MOCK_BALLOT_CHECK with
  | .error m => .error (.configError m)
  | .ok csv_doc => .ok (csv_doc, _MOCK_VOTER_INDEX)

/-- Endpoint #3 (`cast_ballot`): in mock mode returns
`mock_get_ballot_check()`; in live mode resolves the guid workspace and runs
`AcceptBallotOperation.run(cast_ballot_json=cast_ballot, merge_contests=True)`,
returning its result unchanged. -/
def cast_ballot (env : Env) (st : BackendState) (vote_store_id : String)
    (cast_ballot : Doc) :
    Except Error (List (List String) × Nat) × List Call × BackendState :=
  if st.mockMode then
    (mock_get_ballot_check env, [], st)
  else
    match Common.get_guid_based_edf_dir env st vote_store_id with
    | .error e => (.error e, [.resolveDir vote_store_id], st)
    | .ok dir =>
      let (r, st') := env.acceptRun dir _VERBOSITY cast_ballot true st
      (r, [.resolveDir vote_store_id, .acceptRun dir _VERBOSITY cast_ballot true], st')

/-- Endpoint #4 (`verify_ballot_check`): in mock mode returns the fixed
receipt log; in live mode resolves the guid workspace, then looks up the
`ballot-check` and `vote-index` payload keys (in the source's evaluation
order: resolution happens while constructing the operation, before the `run`
arguments are evaluated), then runs
`VerifyBallotReceiptOperation.run(receipt_data, row, cvr=True)`. -/
def verify_ballot_check (env : Env) (st : BackendState) (vote_store_id : String)
    (incoming_json : List (String × Doc)) :
    Except Error String × List Call × BackendState :=
  if st.mockMode then
    (.ok _MOCK_VERIFY_BALLOT_RECEIPT_LOG, [], st)
  else
    match Common.get_guid_based_edf_dir env st vote_store_id with
    | .error e => (.error e, [.resolveDir vote_store_id], st)
    | .ok dir =>
      match dictGet incoming_json "ballot-check" with
      | .error e => (.error e, [.resolveDir vote_store_id], st)
      | .ok receipt_data =>
        match dictGet incoming_json "vote-index" with
        | .error e => (.error e, [.resolveDir vote_store_id], st)
        | .ok row =>
          let (r, st') := env.verifyRun dir receipt_data row true st
          (r, [.resolveDir vote_store_id, .verifyRun dir receipt_data row true], st')

/-- Endpoint #5 (`tally_election_check`): in mock mode returns the fixed tally
log; in live mode resolves the guid workspace, looks up the `verbosity`
payload key (a constructor argument, evaluated after the workspace dir), then
the `contest-uids` and `track-contests` keys, then runs
`TallyContestsOperation.run(contest_uid, track_contests)`. -/
def tally_election_check (env : Env) (st : BackendState) (vote_store_id : String)
    (incoming_json : List (String × Doc)) :
    Except Error String × List Call × BackendState :=
  if st.mockMode then
    (.ok _MOCK_TALLY_CONTESTS_LOG, [], st)
  else
    match Common.get_guid_based_edf_dir env st vote_store_id with
    | .error e => (.error e, [.resolveDir vote_store_id], st)
    | .ok dir =>
      match dictGet incoming_json "verbosity" with
      | .error e => (.error e, [.resolveDir vote_store_id], st)
      | .ok verbosity =>
        match dictGet incoming_json "contest-uids" with
        | .error e => (.error e, [.resolveDir vote_store_id], st)
        | .ok contest_uid =>
          match dictGet incoming_json "track-contests" with
          | .error e => (.error e, [.resolveDir vote_store_id], st)
          | .ok track_contests =>
            let (r, st') := env.tallyRun dir verbosity contest_uid track_contests st
            (r, [.resolveDir vote_store_id,
                 .tallyRun dir verbosity contest_uid track_contests], st')

end VtpBackend

/-- One invocation of a public gateway operation, with its caller-supplied
arguments. -/
inductive GatewayOp where
  | issueSession : GatewayOp
  | getBlankBallot : String → GatewayOp
  | enumerateSessions : GatewayOp
  | castBallot : String → Doc → GatewayOp
  | verifyBallotCheck : String → List (String × Doc) → GatewayOp
  | tally : String → List (String × Doc) → GatewayOp

/-- The backend state after one gateway operation. -/
def runOp (env : Env) (st : BackendState) : GatewayOp → BackendState
  | .issueSession => (VtpBackend.get_vote_store_id env st).2.2
  | .getBlankBallot id => (VtpBackend.get_empty_ballot env st id).2.2
  | .enumerateSessions => (VtpBackend.get_all_guid_workspaces st).2.2
  | .castBallot id d => (VtpBackend.cast_ballot env st id d).2.2
  | .verifyBallotCheck id ij => (VtpBackend.verify_ballot_check env st id ij).2.2
  | .tally id ij => (VtpBackend.tally_election_check env st id ij).2.2

/-- The backend state after a sequence of gateway operations. -/
def runOps (env : Env) (ops : List GatewayOp) (st : BackendState) : BackendState :=
  ops.foldl (runOp env) st

/-- The delegated backing-store operations act on the backing store, not on
the gateway's process-wide configuration: they leave the mock-mode flag
unchanged. -/
def preservesMode (env : Env) : Prop :=
  (∀ dir v d b st, ((env.acceptRun dir v d b st).2).mockMode = st.mockMode) ∧
  (∀ dir r w b st, ((env.verifyRun dir r w b st).2).mockMode = st.mockMode) ∧
  (∀ dir v c t st, ((env.tallyRun dir v c t st).2).mockMode = st.mockMode)

/-- A concrete mock-mode backend state, used to evaluate the gateway at
specific inputs. -/
def stMock : BackendState :=
  { mockMode := true
    workspaces := []
    guidSupply := fun n => "g" ++ toString n
    guidCounter := 0
    blankBallotOf := fun _ _ _ => .ok .null }

/-- A second concrete mock-mode state whose backing store differs from
`stMock` (one workspace exists). -/
def stMock2 : BackendState :=
  { stMock with workspaces := ["w1"] }

/-- A concrete live-mode backend state with one issued session `"s1"`. -/
def stLive : BackendState :=
  { stMock with mockMode := false, workspaces := ["s1"] }

/-- A concrete environment of external collaborators, used to evaluate the
gateway at specific inputs. -/
def envEx : Env :=
  { genericRoEdfDir := "ro-edf"
    guidDirOf := fun g => "edf/" ++ g
    readJson := fun _ => .ok (.str "blank")
    readCsv := fun _ => .ok [["row0"]]
    acceptRun := fun _ _ _ _ st => (.ok ([["row0"]], 1), st)
    verifyRun := fun _ _ _ _ st => (.ok "verified", st)
    tallyRun := fun _ _ _ _ st => (.ok "tallied", st) }

/-- Resolution of an issued guid succeeds with the workspace directory. -/
theorem resolve_issued (env : Env) (st : BackendState) (id : String)
    (h : st.workspaces.contains id = true) :
    Common.get_guid_based_edf_dir env st id = .ok (env.guidDirOf id) := by
  simp [Common.get_guid_based_edf_dir]
  simpa using h

/-- Resolution of a never-issued guid fails with `UnknownSession`. -/
theorem resolve_not_issued (env : Env) (st : BackendState) (id : String)
    (h : st.workspaces.contains id = false) :
    Common.get_guid_based_edf_dir env st id = .error .unknownSession := by
  simp [Common.get_guid_based_edf_dir]
  simpa using h

/-- Claim C1, counterexample: the claim says all five public operations bypass
the Workspace Directory and Operation Invoker in substitute mode and that
their results are independent of the live backing store.  But
`get_all_guid_workspaces` has no mock-mode branch: at the concrete mock-mode
states `stMock` and `stMock2` it still issues the `listWorkspaces` collaborator
call, and its result differs between the two states, which differ only in the
live backing store. -/
theorem mock_total_bypass_counterexample :
    stMock.mockMode = true ∧ stMock2.mockMode = true ∧
    (VtpBackend.get_all_guid_workspaces stMock).2.1 = [Call.listWorkspaces] ∧
    (VtpBackend.get_all_guid_workspaces stMock2).2.1 = [Call.listWorkspaces] ∧
    (VtpBackend.get_all_guid_workspaces stMock).1 = [] ∧
    (VtpBackend.get_all_guid_workspaces stMock2).1 = ["w1"] :=
  ⟨rfl, rfl, rfl, rfl, rfl, rfl⟩

/-- Claim C1 (amended): for four of the five public operations — all except
`enumerate_sessions`/`get_all_guid_workspaces` — substitute mode is a total
bypass: each returns its fixed substitute artifact with an empty collaborator
call trace and an unchanged backend state, for every session-identifier
argument (including never-issued or malformed ones), and the result is
independent of the session identifier and the cast payload. -/
theorem mock_total_bypass_amended (env : Env) (st : BackendState)
    (h : st.mockMode = true) (id id2 : String) (d d2 : Doc)
    (ij ij2 : List (String × Doc)) :
    VtpBackend.get_vote_store_id env st = (VtpBackend._MOCK_GUID, [], st) ∧
    (VtpBackend.get_empty_ballot env st id).2.1 = [] ∧
    (VtpBackend.get_empty_ballot env st id).2.2 = st ∧
    VtpBackend.get_empty_ballot env st id = VtpBackend.get_empty_ballot env st id2 ∧
    VtpBackend.cast_ballot env st id d =
      (VtpBackend.mock_get_ballot_check env, [], st) ∧
    VtpBackend.cast_ballot env st id d = VtpBackend.cast_ballot env st id2 d2 ∧
    VtpBackend.verify_ballot_check env st id ij =
      (.ok VtpBackend._MOCK_VERIFY_BALLOT_RECEIPT_LOG, [], st) ∧
    VtpBackend.verify_ballot_check env st id ij =
      VtpBackend.verify_ballot_check env st id2 ij2 ∧
    VtpBackend.tally_election_check env st id ij =
      (.ok VtpBackend._MOCK_TALLY_CONTESTS_LOG, [], st) ∧
    VtpBackend.tally_election_check env st id ij =
      VtpBackend.tally_election_check env st id2 ij2 := by
  refine ⟨?_, ?_, ?_, ?_, ?_, ?_, ?_, ?_, ?_, ?_⟩ <;>
    simp [VtpBackend.get_vote_store_id, VtpBackend.get_empty_ballot,
      VtpBackend.cast_ballot, VtpBackend.verify_ballot_check,
      VtpBackend.tally_election_check, h]

/-- Witness for `mock_total_bypass_amended` at a concrete mock-mode state. -/
theorem mock_total_bypass_amended_witness :
    stMock.mockMode = true ∧
    VtpBackend.get_vote_store_id envEx stMock =
      (VtpBackend._MOCK_GUID, [], stMock) ∧
    VtpBackend.cast_ballot envEx stMock "bogus" .null =
      (VtpBackend.mock_get_ballot_check envEx, [], stMock) ∧
    VtpBackend.verify_ballot_check envEx stMock "bogus" [] =
      (.ok VtpBackend._MOCK_VERIFY_BALLOT_RECEIPT_LOG, [], stMock) :=
  have h := mock_total_bypass_amended envEx stMock rfl "bogus" "x" .null .null [] []
  ⟨rfl, h.1, h.2.2.2.2.1, h.2.2.2.2.2.2.1⟩

/-- Claim C2: in substitute mode, `get_vote_store_id` returns exactly the
fixed guid string, `get_empty_ballot` returns the parsed content of the
blank-ballot fixture file, `cast_ballot` returns the pair of the parsed CSV
ballot-check fixture rows and the integer 26 (ignoring the caller's
cast-ballot document), `verify_ballot_check` returns exactly the string
"Hello World", and `tally_election_check` returns exactly the string
"Good Morning". -/
theorem mock_fixed_artifacts (env : Env) (st : BackendState) (id : String)
    (d d2 : Doc) (ij : List (String × Doc)) (bb : Doc)
    (rows : List (List String)) (h : st.mockMode = true)
    (hbb : env.readJson VtpBackend._MOCK_BLANK_BALLOT = .ok bb)
    (hcsv : env.readCsv VtpBackend._MOCK_BALLOT_CHECK = .ok rows) :
    (VtpBackend.get_vote_store_id env st).1 =
      "01d963fd74100ee3f36428740a8efd8afd781839" ∧
    (VtpBackend.get_empty_ballot env st id).1 = .ok bb ∧
    (VtpBackend.cast_ballot env st id d).1 = .ok (rows, 26) ∧
    VtpBackend.cast_ballot env st id d = VtpBackend.cast_ballot env st id d2 ∧
    (VtpBackend.verify_ballot_check env st id ij).1 = .ok "Hello World" ∧
    (VtpBackend.tally_election_check env st id ij).1 = .ok "Good Morning" := by
  refine ⟨?_, ?_, ?_, ?_, ?_, ?_⟩ <;>
    simp [VtpBackend.get_vote_store_id, VtpBackend.get_empty_ballot,
      VtpBackend.cast_ballot, VtpBackend.mock_get_ballot_check,
      VtpBackend.verify_ballot_check, VtpBackend.tally_election_check,
      VtpBackend._MOCK_GUID, VtpBackend._MOCK_VOTER_INDEX,
      VtpBackend._MOCK_VERIFY_BALLOT_RECEIPT_LOG,
      VtpBackend._MOCK_TALLY_CONTESTS_LOG, h, hbb, hcsv]

/-- Witness for `mock_fixed_artifacts` at a concrete mock-mode state and
environment. -/
theorem mock_fixed_artifacts_witness :
    stMock.mockMode = true ∧
    envEx.readJson VtpBackend._MOCK_BLANK_BALLOT = .ok (.str "blank") ∧
    envEx.readCsv VtpBackend._MOCK_BALLOT_CHECK = .ok [["row0"]] ∧
    (VtpBackend.get_vote_store_id envEx stMock).1 =
      "01d963fd74100ee3f36428740a8efd8afd781839" ∧
    (VtpBackend.cast_ballot envEx stMock "whatever" .null).1 =
      .ok ([["row0"]], 26) ∧
    (VtpBackend.verify_ballot_check envEx stMock "whatever" []).1 =
      .ok "Hello World" ∧
    (VtpBackend.tally_election_check envEx stMock "whatever" []).1 =
      .ok "Good Morning" :=
  have h := mock_fixed_artifacts envEx stMock "whatever" .null (.num 0) []
    (.str "blank") [["row0"]] rfl rfl rfl
  ⟨rfl, rfl, rfl, h.1, h.2.2.1, h.2.2.2.2.1, h.2.2.2.2.2⟩

/-- Claim C3: in live mode, for every never-issued session identifier, each of
`get_empty_ballot`, `cast_ballot`, `verify_ballot_check` and
`tally_election_check` fails with `UnknownSession` (the identifier does not
resolve to any workspace), and in substitute mode `UnknownSession` is never
raised by any of them, whatever the arguments. -/
theorem unknown_session_live_only (env : Env) (st st2 : BackendState)
    (id id2 : String) (d d2 : Doc) (ij ij2 : List (String × Doc))
    (hlive : st.mockMode = false)
    (hnot : st.workspaces.contains id = false)
    (hmock : st2.mockMode = true) :
    (VtpBackend.get_empty_ballot env st id).1 = .error .unknownSession ∧
    (VtpBackend.cast_ballot env st id d).1 = .error .unknownSession ∧
    (VtpBackend.verify_ballot_check env st id ij).1 = .error .unknownSession ∧
    (VtpBackend.tally_election_check env st id ij).1 = .error .unknownSession ∧
    (VtpBackend.get_empty_ballot env st2 id2).1 ≠ .error .unknownSession ∧
    (VtpBackend.cast_ballot env st2 id2 d2).1 ≠ .error .unknownSession ∧
    (VtpBackend.verify_ballot_check env st2 id2 ij2).1 ≠ .error .unknownSession ∧
    (VtpBackend.tally_election_check env st2 id2 ij2).1 ≠ .error .unknownSession := by
  have hres := resolve_not_issued env st id hnot
  refine ⟨?_, ?_, ?_, ?_, ?_, ?_, ?_, ?_⟩
  · simp [VtpBackend.get_empty_ballot, hlive, hres]
  · simp [VtpBackend.cast_ballot, hlive, hres]
  · simp [VtpBackend.verify_ballot_check, hlive, hres]
  · simp [VtpBackend.tally_election_check, hlive, hres]
  · cases hr : env.readJson VtpBackend._MOCK_BLANK_BALLOT <;>
      simp [VtpBackend.get_empty_ballot, hmock, hr]
  · cases hr : env.readCsv VtpBackend._MOCK_BALLOT_CHECK <;>
      simp [VtpBackend.cast_ballot, VtpBackend.mock_get_ballot_check, hmock, hr]
  · simp [VtpBackend.verify_ballot_check, hmock]
  · simp [VtpBackend.tally_election_check, hmock]

/-- Witness for `unknown_session_live_only` at a concrete live-mode state with
a never-issued identifier and a concrete mock-mode state. -/
theorem unknown_session_live_only_witness :
    stLive.mockMode = false ∧
    stLive.workspaces.contains "never-issued" = false ∧
    stMock.mockMode = true ∧
    (VtpBackend.get_empty_ballot envEx stLive "never-issued").1 =
      .error .unknownSession ∧
    (VtpBackend.cast_ballot envEx stLive "never-issued" .null).1 =
      .error .unknownSession ∧
    (VtpBackend.verify_ballot_check envEx stMock "never-issued" []).1 ≠
      .error .unknownSession :=
  have h := unknown_session_live_only envEx stLive stMock "never-issued"
    "never-issued" .null .null [] [] rfl rfl rfl
  ⟨rfl, rfl, rfl, h.1, h.2.1, h.2.2.2.2.2.2.1⟩

/-- A concrete payload containing every key the gateway looks up. -/
def ijFull : List (String × Doc) :=
  [("ballot-check", .arr [.str "r0"]), ("vote-index", .num 0),
   ("verbosity", .num 3), ("contest-uids", .arr []), ("track-contests", .null)]

/-- Claim C4: in live mode every operation is a transparent relay — it
returns the delegated backing-store operation's result (and resulting state)
unchanged, with exactly one delegated call in its trace (no retries) and the
caller's payload fields forwarded without validation or transformation;
failures of the delegated operation are therefore propagated with their
classification intact. -/
theorem live_transparent_relay (env : Env) (st : BackendState) (id : String)
    (d : Doc) (ij : List (String × Doc)) (bc vi vb cu tc : Doc)
    (hlive : st.mockMode = false)
    (hmem : st.workspaces.contains id = true)
    (hbc : dictGet ij "ballot-check" = .ok bc)
    (hvi : dictGet ij "vote-index" = .ok vi)
    (hvb : dictGet ij "verbosity" = .ok vb)
    (hcu : dictGet ij "contest-uids" = .ok cu)
    (htc : dictGet ij "track-contests" = .ok tc) :
    VtpBackend.get_vote_store_id env st =
      ((SetupVtpDemoOperation.run st).1,
       [.genericRoDir, .setupRun env.genericRoEdfDir VtpBackend._VERBOSITY true],
       (SetupVtpDemoOperation.run st).2) ∧
    VtpBackend.get_empty_ballot env st id =
      (st.blankBallotOf (env.guidDirOf id) VtpBackend._VERBOSITY VtpBackend._ADDRESS,
       [.resolveDir id,
        .blankRun (env.guidDirOf id) VtpBackend._VERBOSITY VtpBackend._ADDRESS true],
       st) ∧
    VtpBackend.get_all_guid_workspaces st =
      (SetupVtpDemoOperation.get_all_guid_workspaces st, [.listWorkspaces], st) ∧
    VtpBackend.cast_ballot env st id d =
      ((env.acceptRun (env.guidDirOf id) VtpBackend._VERBOSITY d true st).1,
       [.resolveDir id, .acceptRun (env.guidDirOf id) VtpBackend._VERBOSITY d true],
       (env.acceptRun (env.guidDirOf id) VtpBackend._VERBOSITY d true st).2) ∧
    VtpBackend.verify_ballot_check env st id ij =
      ((env.verifyRun (env.guidDirOf id) bc vi true st).1,
       [.resolveDir id, .verifyRun (env.guidDirOf id) bc vi true],
       (env.verifyRun (env.guidDirOf id) bc vi true st).2) ∧
    VtpBackend.tally_election_check env st id ij =
      ((env.tallyRun (env.guidDirOf id) vb cu tc st).1,
       [.resolveDir id, .tallyRun (env.guidDirOf id) vb cu tc],
       (env.tallyRun (env.guidDirOf id) vb cu tc st).2) := by
  have hres := resolve_issued env st id hmem
  refine ⟨?_, ?_, rfl, ?_, ?_, ?_⟩ <;>
    simp [VtpBackend.get_vote_store_id, VtpBackend.get_empty_ballot,
      VtpBackend.cast_ballot, VtpBackend.verify_ballot_check,
      VtpBackend.tally_election_check, hlive, hres, hbc, hvi, hvb, hcu, htc]

/-- Witness for `live_transparent_relay` at a concrete live state, issued
session and full payload. -/
theorem live_transparent_relay_witness :
    stLive.mockMode = false ∧
    stLive.workspaces.contains "s1" = true ∧
    dictGet ijFull "ballot-check" = .ok (.arr [.str "r0"]) ∧
    dictGet ijFull "vote-index" = .ok (.num 0) ∧
    dictGet ijFull "verbosity" = .ok (.num 3) ∧
    dictGet ijFull "contest-uids" = .ok (.arr []) ∧
    dictGet ijFull "track-contests" = .ok .null ∧
    (VtpBackend.verify_ballot_check envEx stLive "s1" ijFull).1 =
      .ok "verified" ∧
    (VtpBackend.tally_election_check envEx stLive "s1" ijFull).1 =
      .ok "tallied" :=
  have h := live_transparent_relay envEx stLive "s1" .null ijFull
    (.arr [.str "r0"]) (.num 0) (.num 3) (.arr []) .null
    rfl rfl rfl rfl rfl rfl rfl
  ⟨rfl, rfl, rfl, rfl, rfl, rfl, rfl,
   by rw [h.2.2.2.2.1]; rfl, by rw [h.2.2.2.2.2]; rfl⟩


/-- Claim C5: in live mode, `cast_ballot` resolves the session's workspace,
invokes the accept operation on that workspace with the caller's cast-ballot
document passed verbatim and `merge_contests = true`, and returns that
operation's result — a pair of a ballot-check table and a voter index —
unchanged. -/
theorem cast_ballot_delegation (env : Env) (st : BackendState) (id : String)
    (d : Doc) (hlive : st.mockMode = false)
    (hmem : st.workspaces.contains id = true) :
    Common.get_guid_based_edf_dir env st id = .ok (env.guidDirOf id) ∧
    VtpBackend.cast_ballot env st id d =
      ((env.acceptRun (env.guidDirOf id) VtpBackend._VERBOSITY d true st).1,
       [Call.resolveDir id,
        Call.acceptRun (env.guidDirOf id) VtpBackend._VERBOSITY d true],
       (env.acceptRun (env.guidDirOf id) VtpBackend._VERBOSITY d true st).2) := by
  have hres := resolve_issued env st id hmem
  exact ⟨hres, by simp [VtpBackend.cast_ballot, hlive, hres]⟩

/-- Witness for `cast_ballot_delegation` at a concrete live state and issued
session. -/
theorem cast_ballot_delegation_witness :
    stLive.mockMode = false ∧
    stLive.workspaces.contains "s1" = true ∧
    (VtpBackend.cast_ballot envEx stLive "s1" (.str "my-ballot")).1 =
      .ok ([["row0"]], 1) :=
  have h := cast_ballot_delegation envEx stLive "s1" (.str "my-ballot") rfl rfl
  ⟨rfl, rfl, by rw [h.2]; rfl⟩

/-- Claim C6: for every session identifier, two successive invocations of
`get_empty_ballot` with the same identifier return identical blank-ballot
documents, in both live and substitute mode (the first invocation leaves the
backend state unchanged, and the operation is deterministic in the state). -/
theorem get_empty_ballot_idempotent (env : Env) (st : BackendState)
    (id : String) :
    (VtpBackend.get_empty_ballot env
        ((VtpBackend.get_empty_ballot env st id).2.2) id).1 =
      (VtpBackend.get_empty_ballot env st id).1 := by
  have hst : (VtpBackend.get_empty_ballot env st id).2.2 = st := by
    unfold VtpBackend.get_empty_ballot
    cases hm : st.mockMode
    · cases hr : Common.get_guid_based_edf_dir env st id <;> simp [hr]
    · simp
  rw [hst]

/-- Claim C7: in live mode, after `get_vote_store_id` returns a new session
identifier, a subsequent `get_all_guid_workspaces` returns a list that
includes that newly issued identifier. -/
theorem enumerate_after_issue (env : Env) (st : BackendState)
    (hlive : st.mockMode = false) :
    (VtpBackend.get_vote_store_id env st).1 ∈
      (VtpBackend.get_all_guid_workspaces
        ((VtpBackend.get_vote_store_id env st).2.2)).1 := by
  simp [VtpBackend.get_vote_store_id, hlive, SetupVtpDemoOperation.run,
    VtpBackend.get_all_guid_workspaces,
    SetupVtpDemoOperation.get_all_guid_workspaces]

/-- Witness for `enumerate_after_issue` at a concrete live state. -/
theorem enumerate_after_issue_witness :
    stLive.mockMode = false ∧
    (VtpBackend.get_vote_store_id envEx stLive).1 = "g0" ∧
    "g0" ∈ (VtpBackend.get_all_guid_workspaces
        ((VtpBackend.get_vote_store_id envEx stLive).2.2)).1 :=
  ⟨rfl, rfl, by simpa using enumerate_after_issue envEx stLive rfl⟩

/-- Claim C8: the mock-mode flag is a single process-wide boolean read by
every gateway operation before routing and mutated by none of them: provided
the delegated backing-store operations leave the flag alone (they act on the
store, not on the gateway's configuration), after any sequence of invocations
of the public operations the flag has its initial value. -/
theorem mode_flag_never_mutated (env : Env) (ops : List GatewayOp)
    (st : BackendState) (h : preservesMode env) :
    (runOps env ops st).mockMode = st.mockMode := by
  induction ops generalizing st with
  | nil => rfl
  | cons op rest ih =>
    obtain ⟨ha, hv, ht⟩ := h
    have hstep : (runOp env st op).mockMode = st.mockMode := by
      cases op with
      | issueSession =>
        cases hm : st.mockMode <;>
          simp [runOp, VtpBackend.get_vote_store_id, hm, SetupVtpDemoOperation.run]
      | getBlankBallot id =>
        cases hm : st.mockMode
        · cases hr : Common.get_guid_based_edf_dir env st id <;>
            simp [runOp, VtpBackend.get_empty_ballot, hm, hr]
        · simp [runOp, VtpBackend.get_empty_ballot, hm]
      | enumerateSessions => rfl
      | castBallot id d =>
        cases hm : st.mockMode
        · cases hr : Common.get_guid_based_edf_dir env st id with
          | error e => simp [runOp, VtpBackend.cast_ballot, hm, hr]
          | ok dir => simp [runOp, VtpBackend.cast_ballot, hm, hr, ha]
        · simp [runOp, VtpBackend.cast_ballot, hm]
      | verifyBallotCheck id ij =>
        cases hm : st.mockMode
        · cases hr : Common.get_guid_based_edf_dir env st id with
          | error e => simp [runOp, VtpBackend.verify_ballot_check, hm, hr]
          | ok dir =>
            cases hbc : dictGet ij "ballot-check" with
            | error e => simp [runOp, VtpBackend.verify_ballot_check, hm, hr, hbc]
            | ok bc =>
              cases hvi : dictGet ij "vote-index" <;>
                simp [runOp, VtpBackend.verify_ballot_check, hm, hr, hbc, hvi, hv]
        · simp [runOp, VtpBackend.verify_ballot_check, hm]
      | tally id ij =>
        cases hm : st.mockMode
        · cases hr : Common.get_guid_based_edf_dir env st id with
          | error e => simp [runOp, VtpBackend.tally_election_check, hm, hr]
          | ok dir =>
            cases hvb : dictGet ij "verbosity" with
            | error e => simp [runOp, VtpBackend.tally_election_check, hm, hr, hvb]
            | ok vb =>
              cases hcu : dictGet ij "contest-uids" with
              | error e =>
                simp [runOp, VtpBackend.tally_election_check, hm, hr, hvb, hcu]
              | ok cu =>
                cases htc : dictGet ij "track-contests" <;>
                  simp [runOp, VtpBackend.tally_election_check, hm, hr, hvb, hcu,
                    htc, ht]
        · simp [runOp, VtpBackend.tally_election_check, hm]
    have hrest : (runOps env rest (runOp env st op)).mockMode =
        (runOp env st op).mockMode := ih (runOp env st op)
    calc (runOps env (op :: rest) st).mockMode
        = (runOps env rest (runOp env st op)).mockMode := rfl
      _ = (runOp env st op).mockMode := hrest
      _ = st.mockMode := hstep

/-- Witness for `mode_flag_never_mutated` on a concrete sequence hitting all
five operations. -/
theorem mode_flag_never_mutated_witness :
    preservesMode envEx ∧
    (runOps envEx
      [GatewayOp.issueSession, GatewayOp.getBlankBallot "s1",
       GatewayOp.enumerateSessions, GatewayOp.castBallot "s1" .null,
       GatewayOp.verifyBallotCheck "s1" ijFull, GatewayOp.tally "s1" ijFull]
      stLive).mockMode = stLive.mockMode := by
  have hp : preservesMode envEx :=
    ⟨fun _ _ _ _ _ => rfl, fun _ _ _ _ _ => rfl, fun _ _ _ _ _ => rfl⟩
  exact ⟨hp, mode_flag_never_mutated envEx _ stLive hp⟩

/-- Claim C9: in live mode, `get_empty_ballot` always invokes the blank-ballot
operation with the fixed address "123, Main Street, Concord, Massachusetts"
and the fixed verbosity 3, for every session identifier; the caller supplies
neither, so for a fixed backing store the returned document is a function of
the session identifier alone. -/
theorem blank_ballot_fixed_address (env : Env) (st : BackendState)
    (id : String) (hlive : st.mockMode = false)
    (hmem : st.workspaces.contains id = true) :
    (VtpBackend.get_empty_ballot env st id).2.1 =
      [Call.resolveDir id,
       Call.blankRun (env.guidDirOf id) 3
         "123, Main Street, Concord, Massachusetts" true] ∧
    (VtpBackend.get_empty_ballot env st id).1 =
      st.blankBallotOf (env.guidDirOf id) 3
        "123, Main Street, Concord, Massachusetts" := by
  have hres := resolve_issued env st id hmem
  constructor <;>
    simp [VtpBackend.get_empty_ballot, hlive, hres, VtpBackend._VERBOSITY,
      VtpBackend._ADDRESS]

/-- Witness for `blank_ballot_fixed_address` at a concrete live state. -/
theorem blank_ballot_fixed_address_witness :
    stLive.mockMode = false ∧
    stLive.workspaces.contains "s1" = true ∧
    (VtpBackend.get_empty_ballot envEx stLive "s1").2.1 =
      [Call.resolveDir "s1",
       Call.blankRun "edf/s1" 3 "123, Main Street, Concord, Massachusetts" true] :=
  have h := blank_ballot_fixed_address envEx stLive "s1" rfl rfl
  ⟨rfl, rfl, by rw [h.1]; rfl⟩

/-- Claim C10, counterexample: the claim says that in live mode a payload
lacking a required key makes the operation fail with a key-lookup error.  At
the concrete never-issued identifier "nobody" with an empty payload (which
lacks the required "ballot-check" key), `verify_ballot_check` fails with
`UnknownSession` instead: per the source's evaluation order the workspace is
resolved while constructing the operation, before any payload lookup, and per
spec §4.2 resolution of a never-issued identifier fails first. -/
theorem key_error_before_run_counterexample :
    stLive.mockMode = false ∧
    stLive.workspaces.contains "nobody" = false ∧
    dictGet [] "ballot-check" = .error (.keyError "ballot-check") ∧
    (VtpBackend.verify_ballot_check envEx stLive "nobody" []).1 =
      .error .unknownSession ∧
    (VtpBackend.verify_ballot_check envEx stLive "nobody" []).1 ≠
      .error (.keyError "ballot-check") := by
  refine ⟨rfl, rfl, rfl, rfl, ?_⟩
  intro hcontra
  rw [show (VtpBackend.verify_ballot_check envEx stLive "nobody" []).1 =
      .error .unknownSession from rfl] at hcontra
  simp at hcontra

/-- Claim C10 (amended): in live mode, provided the session identifier
resolves, a payload lacking a required key — "ballot-check" then "vote-index"
for `verify_ballot_check`; "verbosity", "contest-uids" then "track-contests"
for `tally_election_check` — makes the operation fail with exactly that
key-lookup error, with no delegated run call in its trace (the failure
precedes the run); when every required key is present the lookups never fail
and the delegated run call is made. -/
theorem key_error_before_run (env : Env) (st : BackendState) (id : String)
    (ij : List (String × Doc)) (hlive : st.mockMode = false)
    (hmem : st.workspaces.contains id = true) :
    (dictGet ij "ballot-check" = .error (.keyError "ballot-check") →
      VtpBackend.verify_ballot_check env st id ij =
        (.error (.keyError "ballot-check"), [.resolveDir id], st)) ∧
    (∀ bc, dictGet ij "ballot-check" = .ok bc →
      dictGet ij "vote-index" = .error (.keyError "vote-index") →
      VtpBackend.verify_ballot_check env st id ij =
        (.error (.keyError "vote-index"), [.resolveDir id], st)) ∧
    (dictGet ij "verbosity" = .error (.keyError "verbosity") →
      VtpBackend.tally_election_check env st id ij =
        (.error (.keyError "verbosity"), [.resolveDir id], st)) ∧
    (∀ vb, dictGet ij "verbosity" = .ok vb →
      dictGet ij "contest-uids" = .error (.keyError "contest-uids") →
      VtpBackend.tally_election_check env st id ij =
        (.error (.keyError "contest-uids"), [.resolveDir id], st)) ∧
    (∀ vb cu, dictGet ij "verbosity" = .ok vb →
      dictGet ij "contest-uids" = .ok cu →
      dictGet ij "track-contests" = .error (.keyError "track-contests") →
      VtpBackend.tally_election_check env st id ij =
        (.error (.keyError "track-contests"), [.resolveDir id], st)) ∧
    (∀ bc vi, dictGet ij "ballot-check" = .ok bc →
      dictGet ij "vote-index" = .ok vi →
      (VtpBackend.verify_ballot_check env st id ij).2.1 =
        [.resolveDir id, .verifyRun (env.guidDirOf id) bc vi true]) ∧
    (∀ vb cu tc, dictGet ij "verbosity" = .ok vb →
      dictGet ij "contest-uids" = .ok cu →
      dictGet ij "track-contests" = .ok tc →
      (VtpBackend.tally_election_check env st id ij).2.1 =
        [.resolveDir id, .tallyRun (env.guidDirOf id) vb cu tc]) := by
  have hres := resolve_issued env st id hmem
  refine ⟨?_, ?_, ?_, ?_, ?_, ?_, ?_⟩
  · intro hbc
    simp [VtpBackend.verify_ballot_check, hlive, hres, hbc]
  · intro bc hbc hvi
    simp [VtpBackend.verify_ballot_check, hlive, hres, hbc, hvi]
  · intro hvb
    simp [VtpBackend.tally_election_check, hlive, hres, hvb]
  · intro vb hvb hcu
    simp [VtpBackend.tally_election_check, hlive, hres, hvb, hcu]
  · intro vb cu hvb hcu htc
    simp [VtpBackend.tally_election_check, hlive, hres, hvb, hcu, htc]
  · intro bc vi hbc hvi
    simp [VtpBackend.verify_ballot_check, hlive, hres, hbc, hvi]
  · intro vb cu tc hvb hcu htc
    simp [VtpBackend.tally_election_check, hlive, hres, hvb, hcu, htc]

/-- Witness for `key_error_before_run` at a concrete live state: an issued
session with an empty payload fails with the first missing key and makes no
delegated run call. -/
theorem key_error_before_run_witness :
    stLive.mockMode = false ∧
    stLive.workspaces.contains "s1" = true ∧
    dictGet [] "ballot-check" = .error (.keyError "ballot-check") ∧
    VtpBackend.verify_ballot_check envEx stLive "s1" [] =
      (.error (.keyError "ballot-check"), [Call.resolveDir "s1"], stLive) ∧
    dictGet [] "verbosity" = .error (.keyError "verbosity") ∧
    VtpBackend.tally_election_check envEx stLive "s1" [] =
      (.error (.keyError "verbosity"), [Call.resolveDir "s1"], stLive) :=
  have h := key_error_before_run envEx stLive "s1" [] rfl rfl
  ⟨rfl, rfl, rfl, h.1 rfl, rfl, h.2.2.1 rfl⟩
